import Mathlib

/-!
Verification development for the wallpaper-gallery document generator
(`.github/docgen.py`).  The Python source is shallowly embedded below:
pure functions become Lean functions, Python exceptions become `Except`
values, Python dicts become association lists with first-match lookup
(so `a | b`, where `b` wins on common keys, is represented as `b ++ a`),
and the in-place random shuffle becomes an explicit permutation
parameter.  Filesystem state (the repository tree, the template
directory, the default-templates manifest) is passed in explicitly.
-/

/-- Python exception classes that the embedded code can raise. -/
inductive PyErr
  | keyError (k : String)
  | valueError
  | indexError
  | typeError
deriving DecidableEq, Repr

deriving instance DecidableEq for Except

/-- Python dict lookup `d[k]` as an `Option`, over an association list with
first-match semantics. -/
def dget {α : Type} (d : List (String × α)) (k : String) : Option α :=
  match d with
  | [] => none
  | (k', v) :: rest => if k' = k then some v else dget rest k

/-- Python dict lookup `d[k]` raising `KeyError` when the key is absent. -/
def dgetE {α : Type} (d : List (String × α)) (k : String) : Except PyErr α :=
  match dget d k with
  | some v => Except.ok v
  | none => Except.error (PyErr.keyError k)

/-- Python dict item assignment `d[k] = v`, for the lookup-oriented
association-list representation. -/
def dictSet {α : Type} (d : List (String × α)) (k : String) (v : α) :
    List (String × α) :=
  (k, v) :: d

/-- Python dict merge `a | b` (values of `b` win on common keys), for the
lookup-oriented association-list representation. -/
def pyUnion {α : Type} (a b : List (String × α)) : List (String × α) :=
  b ++ a

/-- Python `str.casefold` restricted to the ASCII strings the program
compares (`"True"`, config booleans). -/
def pyCasefold (s : String) : String :=
  String.mk (s.data.map Char.toLower)

/-- Python `s.startswith(pre)`. -/
def pyStartsWith (s pre : String) : Bool :=
  pre.data.isPrefixOf s.data

/-- Helper for `pySplit`: groups a character list at every separator. -/
def splitAux (sep : Char) : List Char → List (List Char)
  | [] => [[]]
  | c :: rest =>
    match splitAux sep rest with
    | [] => [[]]
    | g :: gs => if c = sep then [] :: g :: gs else (c :: g) :: gs

/-- Python `s.split(sep)` for a one-character separator
(`"".split(":") = [""]`). -/
def pySplit (s : String) (sep : Char) : List String :=
  (splitAux sep s.data).map String.mk

/-- Numeric value of a nonempty run of decimal digits, `none` otherwise. -/
def digitsVal : List Char → Option Nat
  | [] => none
  | [c] => if c.isDigit then some (c.toNat - 48) else none
  | c :: cs =>
    if c.isDigit then
      match digitsVal cs with
      | some n => some ((c.toNat - 48) * 10 ^ cs.length + n)
      | none => none
    else none

/-- Strips leading and trailing whitespace, as `int()` does before
parsing. -/
def stripWs (cs : List Char) : List Char :=
  ((cs.dropWhile Char.isWhitespace).reverse.dropWhile Char.isWhitespace).reverse

/-- Python `int(s)`: optional surrounding whitespace, optional sign, then
decimal digits; everything else raises `ValueError`. -/
def pyInt (s : String) : Except PyErr Int :=
  match stripWs s.data with
  | '-' :: ds =>
    match digitsVal ds with
    | some n => Except.ok (-(n : Int))
    | none => Except.error PyErr.valueError
  | '+' :: ds =>
    match digitsVal ds with
    | some n => Except.ok (n : Int)
    | none => Except.error PyErr.valueError
  | ds =>
    match digitsVal ds with
    | some n => Except.ok (n : Int)
    | none => Except.error PyErr.valueError

/-- Python list slice `l[:n]` for an `int` bound `n` (negative bounds count
from the end, clamped at zero). -/
def pySliceTo {α : Type} (l : List α) (n : Int) : List α :=
  if 0 ≤ n then l.take n.toNat else l.take (l.length - (-n).toNat)

/-- Python `"\n" * n` (a non-positive count yields the empty string). -/
def nlRepeat (n : Int) : String :=
  String.mk (List.replicate n.toNat '\n')

/-- `pathlib.Path.stem`: the final component without its suffix; the suffix
is the part after the last dot, provided that dot is neither the first nor
the last character of the name. -/
def lastIdx (cs : List Char) (c : Char) : Option Nat :=
  match cs with
  | [] => none
  | x :: xs =>
    match lastIdx xs c with
    | some i => some (i + 1)
    | none => if x = c then some 0 else none

/-- See `lastIdx`; `pathStem "a.png" = "a"`, `pathStem "a" = "a"`. -/
def pathStem (name : String) : String :=
  match lastIdx name.data '.' with
  | some i =>
    if 0 < i ∧ i < name.data.length - 1 then String.mk (name.data.take i)
    else name
  | none => name

/-- Splits a format-string field at its closing brace: returns the field
characters and the remainder after the brace, or `none` when the closing
brace is missing. -/
def fieldSplit : List Char → Option (List Char × List Char)
  | [] => none
  | c :: cs =>
    if c = '}' then some ([], cs)
    else
      match fieldSplit cs with
      | some p => some (c :: p.1, p.2)
      | none => none

/-- Core of Python `str.format(**cfg)` over named fields: handles the
escapes (doubled braces), a lone brace raises `ValueError`, an empty or
all-digit field is positional and raises `IndexError` (no positional
arguments are passed), and a named field is looked up in `cfg`, raising
`KeyError` when absent.  The fuel argument starts at one more than the
length of the character list and never runs out, since every step
consumes at least one character. -/
def pyFormatGo (cfg : List (String × String)) :
    Nat → List Char → Except PyErr (List Char)
  | _, [] => Except.ok []
  | 0, _ :: _ => Except.error PyErr.valueError
  | n + 1, c :: cs =>
    if c = '{' then
      match cs with
      | [] => Except.error PyErr.valueError
      | d :: ds =>
        if d = '{' then
          match pyFormatGo cfg n ds with
          | Except.ok t => Except.ok ('{' :: t)
          | Except.error e => Except.error e
        else
          match fieldSplit (d :: ds) with
          | none => Except.error PyErr.valueError
          | some (f, r) =>
            if f.isEmpty ∨ f.all Char.isDigit then Except.error PyErr.indexError
            else
              match dget cfg (String.mk f) with
              | some v =>
                match pyFormatGo cfg n r with
                | Except.ok t => Except.ok (v.data ++ t)
                | Except.error e => Except.error e
              | none => Except.error (PyErr.keyError (String.mk f))
    else if c = '}' then
      match cs with
      | [] => Except.error PyErr.valueError
      | d :: ds =>
        if d = '}' then
          match pyFormatGo cfg n ds with
          | Except.ok t => Except.ok ('}' :: t)
          | Except.error e => Except.error e
        else Except.error PyErr.valueError
    else
      match pyFormatGo cfg n cs with
      | Except.ok t => Except.ok (c :: t)
      | Except.error e => Except.error e

/-- Python `s.format(**cfg)` with named `\x7bname\x7d` placeholders. -/
def pyFormat (cfg : List (String × String)) (s : String) : Except PyErr String :=
  match pyFormatGo cfg (s.data.length + 1) s.data with
  | Except.ok t => Except.ok (String.mk t)
  | Except.error e => Except.error e

/-- A flat string-keyed configuration mapping (the `CONFIG` of the
program). -/
abbrev Config := List (String × String)

/-- The value a template primes to: ordinary templates prime to a string,
the category handler primes to a mapping from output path to body. -/
inductive Primed
  | str (s : String)
  | dict (d : List (String × String))
deriving DecidableEq, Repr

/-- Type of a registered per-template handler, as called by
`prime_templates`: handler(template-name, raw-content, config). -/
abbrev HandlerFn := String → String → Config → Except PyErr Primed

/-- The warning printed by `prime_templates` when generic substitution
hits a `KeyError` for variable `k` while priming template `t`. -/
def warnMsg (t k : String) : String :=
  "Warning: Template " ++ t ++ " needs variable \x27" ++ k ++
    "\x27 that\x27s not in config. Using template as-is."

/-- `prime_templates(config, handlers, templates)`: dispatches each
template to its registered handler when one exists (handler exceptions
propagate), otherwise substitutes placeholders from `config`, catching
only `KeyError` (store the raw content and warn); any other exception
propagates.  Returns the primed mapping together with the warnings
printed, in template order. -/
def primeTemplates (config : Config) (handlers : List (String × HandlerFn)) :
    List (String × String) → Except PyErr (List (String × Primed) × List String)
  | [] => Except.ok ([], [])
  | (name, s) :: rest =>
    match dget handlers name with
    | some h =>
      match h name s config with
      | Except.ok v =>
        match primeTemplates config handlers rest with
        | Except.ok (r, ws) => Except.ok ((name, v) :: r, ws)
        | Except.error e => Except.error e
      | Except.error e => Except.error e
    | none =>
      match pyFormat config s with
      | Except.ok t =>
        match primeTemplates config handlers rest with
        | Except.ok (r, ws) => Except.ok ((name, Primed.str t) :: r, ws)
        | Except.error e => Except.error e
      | Except.error (PyErr.keyError k) =>
        match primeTemplates config handlers rest with
        | Except.ok (r, ws) =>
          Except.ok ((name, Primed.str s) :: r, warnMsg name k :: ws)
        | Except.error e => Except.error e
      | Except.error e => Except.error e

/-- The repository tree seen by `listdir`: the entries directly under the
root, in directory-listing order; `none` marks a regular file, `some fs`
marks a directory whose own listing is `fs`. -/
structure FS where
  entries : List (String × Option (List String))

/-- The `exclude` argument of `categorical_wallpapers`: either a
colon-separated string or an already-split list. -/
inductive StrOrList
  | str (s : String)
  | list (l : List String)

/-- `exclude.split(":") if type(exclude) is str else exclude`. -/
def normalizeExclude : StrOrList → List String
  | StrOrList.str s => pySplit s ':'
  | StrOrList.list l => l

/-- `categorical_wallpapers(exclude)`: every root entry that is a
directory, is not hidden (leading dot) and is not excluded becomes a
category; its picture list is its directory listing minus the literal
name README.md. -/
def categoricalWallpapers (fs : FS) (exclude : StrOrList) :
    List (String × List String) :=
  (fs.entries.filterMap fun p =>
    match p.2 with
    | none => none
    | some files =>
      if ¬ pyStartsWith p.1 "." ∧ p.1 ∉ normalizeExclude exclude then
        some (p.1, files.filter (fun f => f ≠ "README.md"))
      else none)

/-- `generate_shuffled(config, categories)`: parses
`int(config["choose"])`, then for each category shuffles its picture
list in place and keeps the first `choose` entries.  The in-place random
shuffle is modelled by the explicit permutation parameter `sh`. -/
def generateShuffled (sh : List String → List String) (config : Config)
    (categories : List (String × List String)) :
    Except PyErr (List (String × List String)) :=
  match dgetE config "choose" with
  | Except.error e => Except.error e
  | Except.ok chooseS =>
    match pyInt chooseS with
    | Except.error e => Except.error e
    | Except.ok choose =>
      Except.ok (categories.map fun p => (p.1, pySliceTo (sh p.2) choose))

/-- `handle_body` line 98: `merged = \x7b"category": category\x7d | config`
(the config value wins on the common key `category`). -/
def bodyMerged (category : String) (config : Config) : Config :=
  pyUnion [("category", category)] config

/-- One per-picture substitution inside `handle_body`: sets
`merged["random"]` to the picture path and `merged["random_stem"]` to its
stem, then formats the template string with the merged mapping. -/
def bodyPicEntry (string : String) (merged : Config) (picture : String) :
    Except PyErr String :=
  pyFormat (dictSet (dictSet merged "random" picture) "random_stem"
    (pathStem picture)) string

/-- The inner picture loop of `handle_body`, producing the formatted
lines appended to `results`, in order. -/
def bodyPicsLoop (string : String) (merged : Config) :
    List String → Except PyErr (List String)
  | [] => Except.ok []
  | p :: ps =>
    match bodyPicEntry string merged p with
    | Except.error e => Except.error e
    | Except.ok s =>
      match bodyPicsLoop string merged ps with
      | Except.error e => Except.error e
      | Except.ok rest => Except.ok (s :: rest)

/-- The per-category loop of `handle_body`: a heading piece
`## category` followed by the spacing, the formatted pictures, and, when
`config["browse"]` casefolds to `"true"`, a browse-link piece. -/
def bodyCatsLoop (string : String) (config : Config) (spacing : String) :
    List (String × List String) → Except PyErr (List String)
  | [] => Except.ok []
  | (category, pictures) :: rest =>
    match bodyPicsLoop string (bodyMerged category config) pictures with
    | Except.error e => Except.error e
    | Except.ok pics =>
      match dgetE config "browse" with
      | Except.error e => Except.error e
      | Except.ok b =>
        match bodyCatsLoop string config spacing rest with
        | Except.error e => Except.error e
        | Except.ok tail =>
          Except.ok (("## " ++ category ++ spacing) :: pics ++
            (if pyCasefold b = pyCasefold "True" then
              ["[Browse](../" ++ category ++ "/README.md)" ++ spacing]
            else []) ++ tail)

/-- `handle_body(_, string, config)`: scans categories filtered by
`config["exclude"]`, samples them with `generate_shuffled`, computes the
spacing string from `int(config["spacing"])`, builds the pieces and joins
them with the spacing. -/
def handleBody (fs : FS) (sh : List String → List String)
    (_name string : String) (config : Config) : Except PyErr String :=
  match dgetE config "exclude" with
  | Except.error e => Except.error e
  | Except.ok ex =>
    match generateShuffled sh config (categoricalWallpapers fs (StrOrList.str ex)) with
    | Except.error e => Except.error e
    | Except.ok shuffled =>
      match dgetE config "spacing" with
      | Except.error e => Except.error e
      | Except.ok spS =>
        match pyInt spS with
        | Except.error e => Except.error e
        | Except.ok n =>
          match bodyCatsLoop string config (nlRepeat n) shuffled with
          | Except.error e => Except.error e
          | Except.ok pieces =>
            Except.ok (String.intercalate (nlRepeat n) pieces)

/-- `handle_category` line 117: `config | \x7b"category": category\x7d`
(the injected directory name wins on the common key `category`). -/
def catHeaderMerged (config : Config) (category : String) : Config :=
  pyUnion config [("category", category)]

/-- `handle_category` line 121: config merged with the picture path,
picture stem and injected category name (the injected values win). -/
def catPicMerged (config : Config) (picture : String) (category : String) :
    Config :=
  pyUnion config
    [("filepath", picture), ("filename", pathStem picture),
     ("category", category)]

/-- The inner picture loop of `handle_category`: appends each formatted
picture line plus the spacing onto the accumulated document. -/
def catPicsLoop (string spacing : String) (config : Config)
    (category : String) (acc : String) :
    List String → Except PyErr String
  | [] => Except.ok acc
  | p :: ps =>
    match pyFormat (catPicMerged config p category) string with
    | Except.error e => Except.error e
    | Except.ok s => catPicsLoop string spacing config category
        (acc ++ s ++ spacing) ps

/-- The per-category loop of `handle_category`: initialises each
per-category document with the substituted header, appends the picture
lines, and keys the document under `category/README.md`. -/
def handleCategoryLoop (string spacing header : String) (config : Config) :
    List (String × List String) → Except PyErr (List (String × String))
  | [] => Except.ok []
  | (category, pictures) :: rest =>
    match pyFormat (catHeaderMerged config category) header with
    | Except.error e => Except.error e
    | Except.ok h =>
      match catPicsLoop string spacing config category h pictures with
      | Except.error e => Except.error e
      | Except.ok body =>
        match handleCategoryLoop string spacing header config rest with
        | Except.error e => Except.error e
        | Except.ok tail =>
          Except.ok ((category ++ "/README.md", body) :: tail)

/-- `handle_category(_, string, config)`: computes the spacing, re-loads
the templates to fetch the optional `category.header.md` override
(defaulting to a level-1 heading), and iterates over an UNFILTERED
category scan (`categorical_wallpapers()` with the default empty
exclude list) — `config["exclude"]` is never consulted.  `tmpls` is the
mapping returned by the inner `get_templates()` call. -/
def handleCategory (fs : FS) (tmpls : List (String × String))
    (_name string : String) (config : Config) :
    Except PyErr (List (String × String)) :=
  match dgetE config "spacing" with
  | Except.error e => Except.error e
  | Except.ok spS =>
    match pyInt spS with
    | Except.error e => Except.error e
    | Except.ok n =>
      handleCategoryLoop string (nlRepeat n)
        ((dget tmpls "category.header.md").getD "# {category}\n\n") config
        (categoricalWallpapers fs (StrOrList.list []))

/-- A value of the default-templates manifest: a JSON string, or a JSON
list of lines to be joined with newlines. -/
inductive TmplContent
  | str (s : String)
  | lines (l : List String)

/-- The file content written for a manifest value
(`"\n".join(content)` when the value is a list). -/
def renderContent : TmplContent → String
  | TmplContent.str s => s
  | TmplContent.lines l => String.intercalate "\n" l

/-- The state of `.github/templates.json`: absent, present but invalid
JSON, or a valid JSON object mapping template name to content. -/
inductive ManifestFile
  | absent
  | invalid
  | valid (m : List (String × TmplContent))

/-- The write loop of `create_default_templates`: for each manifest
entry whose file does not yet exist in the template directory, write it.
Returns the updated directory and the list of writes performed. -/
def bootstrapWrite (dir : List (String × String)) :
    List (String × TmplContent) →
    List (String × String) × List (String × String)
  | [] => (dir, [])
  | (name, c) :: rest =>
    if (dget dir name).isSome then bootstrapWrite dir rest
    else
      match bootstrapWrite (dir ++ [(name, renderContent c)]) rest with
      | (d, ws) => (d, (name, renderContent c) :: ws)

/-- Outcome of one `create_default_templates()` call: the template
directory afterwards, the warnings printed, and the writes performed. -/
structure BootstrapResult where
  dir : List (String × String)
  warnings : List String
  writes : List (String × String)
deriving Repr

/-- `create_default_templates()`: a missing manifest file or invalid
manifest JSON prints a warning and returns without writing; a valid
manifest writes every entry whose file does not yet exist. -/
def createDefaultTemplates (manifest : ManifestFile)
    (tdir : List (String × String)) : BootstrapResult :=
  match manifest with
  | ManifestFile.absent =>
    ⟨tdir,
     ["Warning: templates.json not found. Please create the templates configuration file."],
     []⟩
  | ManifestFile.invalid =>
    ⟨tdir,
     ["Warning: templates.json is invalid. Please check the JSON format."],
     []⟩
  | ManifestFile.valid m =>
    ⟨(bootstrapWrite tdir m).1, [], (bootstrapWrite tdir m).2⟩

/-- `get_templates()`: bootstraps the defaults, then reads every file
present in the template directory, keyed by file name. -/
def getTemplates (manifest : ManifestFile)
    (tdir : List (String × String)) : List (String × String) :=
  (createDefaultTemplates manifest tdir).dir

/-- The template mapping available at `__main__` time: `get_templates()`
evaluated once as the default argument of `prime_templates`. -/
def mainTemplates (manifest : ManifestFile)
    (tdir : List (String × String)) : List (String × String) :=
  getTemplates manifest tdir

/-- The handler registry passed by `__main__`:
`\x7b"body.category.md": handle_body, "category.md": handle_category\x7d`.
`handle_category` re-loads templates itself, by which time the first
bootstrap has already run. -/
def mainHandlers (fs : FS) (sh : List String → List String)
    (manifest : ManifestFile) (tdir : List (String × String)) :
    List (String × HandlerFn) :=
  [("body.category.md", fun n s c => (handleBody fs sh n s c).map Primed.str),
   ("category.md", fun n s c =>
     (handleCategory fs (getTemplates manifest (mainTemplates manifest tdir))
       n s c).map Primed.dict)]

/-- The fixed template sequence of the full document
(`full_templates` in `__main__`). -/
def fullTemplateNames : List String :=
  ["heading", "body.heading", "body.category", "sources"]

/-- The list comprehension `[primed[item + ".md"] for item in names]`:
each lookup raises `KeyError` when absent, in order. -/
def composeFull (primed : List (String × Primed)) :
    List String → Except PyErr (List Primed)
  | [] => Except.ok []
  | item :: rest =>
    match dgetE primed (item ++ ".md") with
    | Except.error e => Except.error e
    | Except.ok v =>
      match composeFull primed rest with
      | Except.error e => Except.error e
      | Except.ok r => Except.ok (v :: r)

/-- Lines 131 to 133 of `__main__`: the ordered full-document lookups
followed by the `category.md` lookup for the per-category set. -/
def composeMain (primed : List (String × Primed)) :
    Except PyErr (List Primed × Primed) :=
  match composeFull primed fullTemplateNames with
  | Except.error e => Except.error e
  | Except.ok full =>
    match dgetE primed "category.md" with
    | Except.error e => Except.error e
    | Except.ok part => Except.ok (full, part)

/-- What a complete run produces: the dry-run JSON payload, or the list
of files written (root README first, then each per-category README). -/
inductive MainOut
  | dryRun (full : List Primed) (part : Primed)
  | written (files : List (String × String))
deriving DecidableEq, Repr

/-- `str(value)` of a full-document entry as required by
`"\n".join(full_templates)`: a non-string raises `TypeError`. -/
def primedStr : Primed → Except PyErr String
  | Primed.str s => Except.ok s
  | Primed.dict _ => Except.error PyErr.typeError

/-- `full.mapM primedStr`, written out for easy unfolding. -/
def primedStrs : List Primed → Except PyErr (List String)
  | [] => Except.ok []
  | p :: ps =>
    match primedStr p with
    | Except.error e => Except.error e
    | Except.ok s =>
      match primedStrs ps with
      | Except.error e => Except.error e
      | Except.ok rest => Except.ok (s :: rest)

/-- The `__main__` block: injects `date` into the configuration, primes
every template with the two registered handlers, resolves the fixed full
sequence and the `category.md` per-category mapping, reads `CONFIG["dry"]`,
and either emits the dry-run payload or writes the root README joined
with the spacing followed by each per-category README. -/
def pyMain (fs : FS) (sh : List String → List String)
    (manifest : ManifestFile) (tdir : List (String × String))
    (config0 : Config) (date : String) : Except PyErr MainOut :=
  match primeTemplates (dictSet config0 "date" date)
      (mainHandlers fs sh manifest tdir) (mainTemplates manifest tdir) with
  | Except.error e => Except.error e
  | Except.ok (primed, _ws) =>
    match composeMain primed with
    | Except.error e => Except.error e
    | Except.ok (full, part) =>
      match dgetE (dictSet config0 "date" date) "dry" with
      | Except.error e => Except.error e
      | Except.ok dry =>
        if pyCasefold dry = pyCasefold "True" then
          Except.ok (MainOut.dryRun full part)
        else
          match dgetE (dictSet config0 "date" date) "spacing" with
          | Except.error e => Except.error e
          | Except.ok spS =>
            match pyInt spS with
            | Except.error e => Except.error e
            | Except.ok n =>
              match primedStrs full with
              | Except.error e => Except.error e
              | Except.ok strs =>
                match part with
                | Primed.dict d =>
                  Except.ok (MainOut.written
                    (("README.md",
                      String.intercalate (nlRepeat n) strs) :: d))
                | Primed.str _ => Except.error PyErr.typeError

theorem dget_append {α : Type} (a b : List (String × α)) (k : String) :
    dget (a ++ b) k =
      match dget a k with
      | some v => some v
      | none => dget b k := by
  induction a with
  | nil => simp [dget]
  | cons p rest ih =>
    by_cases h : p.1 = k
    · simp [dget, h]
    · simp [dget, h, ih]

theorem dget_dictSet_ne {α : Type} (d : List (String × α)) (k k' : String)
    (v : α) (h : k ≠ k') : dget (dictSet d k v) k' = dget d k' := by
  simp [dictSet, dget, h]

theorem bootstrapWrite_mono (m : List (String × TmplContent))
    (dir : List (String × String)) (k : String)
    (h : (dget dir k).isSome) : (dget (bootstrapWrite dir m).1 k).isSome := by
  induction m generalizing dir with
  | nil => exact h
  | cons p rest ih =>
    by_cases hex : (dget dir p.1).isSome
    · simpa [bootstrapWrite, hex] using ih dir h
    · have hsub : (dget (dir ++ [(p.1, renderContent p.2)]) k).isSome := by
        rw [dget_append]
        cases hd : dget dir k with
        | none => rw [hd] at h; simp at h
        | some v => simp
      simpa [bootstrapWrite, hex] using ih _ hsub

theorem bootstrapWrite_covers (m : List (String × TmplContent))
    (dir : List (String × String)) (p : String × TmplContent)
    (hp : p ∈ m) : (dget (bootstrapWrite dir m).1 p.1).isSome := by
  induction m generalizing dir with
  | nil => cases hp
  | cons q rest ih =>
    by_cases hex : (dget dir q.1).isSome
    · rcases List.mem_cons.mp hp with heq | htail
      · subst heq
        simpa [bootstrapWrite, hex] using bootstrapWrite_mono rest dir p.1 hex
      · simpa [bootstrapWrite, hex] using ih dir htail
    · rcases List.mem_cons.mp hp with heq | htail
      · subst heq
        have hsub : (dget (dir ++ [(p.1, renderContent p.2)]) p.1).isSome := by
          rw [dget_append]
          cases hd : dget dir p.1 with
          | none => simp [dget]
          | some v => simp
        simpa [bootstrapWrite, hex] using bootstrapWrite_mono rest _ p.1 hsub
      · simpa [bootstrapWrite, hex] using ih _ htail

theorem bootstrapWrite_noop (m : List (String × TmplContent))
    (dir : List (String × String))
    (h : ∀ p ∈ m, (dget dir p.1).isSome) : bootstrapWrite dir m = (dir, []) := by
  induction m with
  | nil => rfl
  | cons q rest ih =>
    have hq : (dget dir q.1).isSome := h q (List.mem_cons_self q rest)
    simp only [bootstrapWrite, hq, if_true]
    exact ih (fun p hp => h p (List.mem_cons_of_mem q hp))

/-- C6: the Template Store bootstrap is idempotent — after one run, a
second run in succession finds every manifest entry already on disk,
performs no writes and leaves the template directory unchanged. -/
theorem bootstrap_idempotent (m : List (String × TmplContent))
    (tdir : List (String × String)) :
    createDefaultTemplates (ManifestFile.valid m)
        ((createDefaultTemplates (ManifestFile.valid m) tdir).dir) =
      ⟨(createDefaultTemplates (ManifestFile.valid m) tdir).dir, [], []⟩ := by
  have hcov : ∀ p ∈ m, (dget (bootstrapWrite tdir m).1 p.1).isSome := by
    intro p hp
    exact bootstrapWrite_covers m tdir p hp
  have hno := bootstrapWrite_noop m (bootstrapWrite tdir m).1 hcov
  simp [createDefaultTemplates, hno]

/-- C7: an absent or invalid default-templates manifest makes the
bootstrap emit exactly one warning and perform no writes, and the load
step still returns every file already present in the template
directory, keyed by file name. -/
theorem bootstrap_manifest_failure (manifest : ManifestFile)
    (tdir : List (String × String))
    (h : manifest = ManifestFile.absent ∨ manifest = ManifestFile.invalid) :
    (createDefaultTemplates manifest tdir).dir = tdir ∧
    (createDefaultTemplates manifest tdir).writes = [] ∧
    (createDefaultTemplates manifest tdir).warnings.length = 1 ∧
    getTemplates manifest tdir = tdir := by
  rcases h with h | h <;> subst h <;>
    exact ⟨rfl, rfl, rfl, rfl⟩

/-- Witness for C7 at a concrete template directory and absent manifest. -/
theorem bootstrap_manifest_failure_witness :
    (createDefaultTemplates ManifestFile.absent [("a.md", "A")]).dir =
        [("a.md", "A")] ∧
    (createDefaultTemplates ManifestFile.absent [("a.md", "A")]).writes = [] ∧
    (createDefaultTemplates ManifestFile.absent [("a.md", "A")]).warnings.length = 1 ∧
    getTemplates ManifestFile.absent [("a.md", "A")] = [("a.md", "A")] :=
  bootstrap_manifest_failure ManifestFile.absent [("a.md", "A")] (Or.inl rfl)

/-- C1: for a non-negative `config["choose"] = k`, the sampler returns,
for each category, a list of length `min k |C|` whose every element
belongs to the original picture list of that category; when `k` exceeds the
category size the whole (permuted) list is returned, with no error. -/
theorem generateShuffled_min_and_subset (sh : List String → List String)
    (config : Config) (categories : List (String × List String))
    (hperm : ∀ l, (sh l).Perm l) (cs : String) (k : Int)
    (hc : dget config "choose" = some cs) (hk : pyInt cs = Except.ok k)
    (hnn : 0 ≤ k) :
    ∃ res, generateShuffled sh config categories = Except.ok res ∧
      res.length = categories.length ∧
      ∀ q ∈ res.zip categories,
        q.1.1 = q.2.1 ∧
        q.1.2.length = min k.toNat q.2.2.length ∧
        ∀ x ∈ q.1.2, x ∈ q.2.2 := by
  refine ⟨categories.map fun p => (p.1, pySliceTo (sh p.2) k), ?_, ?_, ?_⟩
  · simp [generateShuffled, dgetE, hc, hk]
  · simp
  · intro q hq
    have hzip : (categories.map fun p => (p.1, pySliceTo (sh p.2) k)).zip
        categories =
        categories.map fun p => ((p.1, pySliceTo (sh p.2) k), p) := by
      have := List.zip_map' (fun p : String × List String =>
        (p.1, pySliceTo (sh p.2) k)) id categories
      simpa using this
    rw [hzip] at hq
    rcases List.mem_map.mp hq with ⟨p, hp, rfl⟩
    refine ⟨rfl, ?_, ?_⟩
    · have hlen : (sh p.2).length = p.2.length := (hperm p.2).length_eq
      simp [pySliceTo, hnn, List.length_take, hlen]
    · intro x hx
      have hx' : x ∈ sh p.2 := by
        have : x ∈ (sh p.2).take k.toNat := by
          simpa [pySliceTo, hnn] using hx
        exact List.take_subset _ _ this
      exact ((hperm p.2).mem_iff).mp hx'

/-- Witness for C1 with the identity permutation, `choose = 2` and one
three-picture category. -/
theorem generateShuffled_min_and_subset_witness :
    ∃ res, generateShuffled id [("choose", "2")] [("a", ["x", "y", "z"])] =
        Except.ok res ∧
      res.length = [("a", ["x", "y", "z"])].length ∧
      ∀ q ∈ res.zip [("a", ["x", "y", "z"])],
        q.1.1 = q.2.1 ∧
        q.1.2.length = min (Int.toNat 2) q.2.2.length ∧
        ∀ x ∈ q.1.2, x ∈ q.2.2 :=
  generateShuffled_min_and_subset id [("choose", "2")] [("a", ["x", "y", "z"])]
    (fun l => List.Perm.refl l) "2" 2 (by decide) (by decide) (by norm_num)

/-- Counterexample to C2: the template whose raw content is the single
character `\x7b` makes generic substitution raise `ValueError`, which
`prime_templates` does not catch — priming aborts instead of storing a
result, so the priming step does not complete for every raw content. -/
theorem primeTemplates_raises_on_lone_brace :
    primeTemplates [] [] [("t.md", "\x7b")] = Except.error PyErr.valueError := by
  decide

/-- C2 (amended): for a handler-less template, whenever generic
substitution either succeeds or fails with a missing-variable
`KeyError`, priming stores the substituted string or, after a warning,
the raw content; but a substitution failure other than `KeyError`
(`ValueError` for malformed braces, `IndexError` for positional fields)
propagates and aborts the batch. -/
theorem primeTemplates_handlerless (config : Config)
    (handlers : List (String × HandlerFn)) (name raw : String)
    (h : dget handlers name = none) :
    (∀ s, pyFormat config raw = Except.ok s →
      primeTemplates config handlers [(name, raw)] =
        Except.ok ([(name, Primed.str s)], [])) ∧
    (∀ k, pyFormat config raw = Except.error (PyErr.keyError k) →
      primeTemplates config handlers [(name, raw)] =
        Except.ok ([(name, Primed.str raw)], [warnMsg name k])) ∧
    (∀ e, (∀ k, e ≠ PyErr.keyError k) →
      pyFormat config raw = Except.error e →
      primeTemplates config handlers [(name, raw)] = Except.error e) := by
  refine ⟨?_, ?_, ?_⟩
  · intro s hs
    simp [primeTemplates, h, hs]
  · intro k hk
    simp [primeTemplates, h, hk]
  · intro e hne he
    cases e with
    | keyError k => exact absurd rfl (hne k)
    | valueError => simp [primeTemplates, h, he]
    | indexError => simp [primeTemplates, h, he]
    | typeError => simp [primeTemplates, h, he]

/-- Witness for C2 (amended) at a concrete missing-variable template. -/
theorem primeTemplates_handlerless_witness :
    primeTemplates [] [] [("u.md", "{missing}")] =
      Except.ok ([("u.md", Primed.str "{missing}")],
        [warnMsg "u.md" "missing"]) :=
  (primeTemplates_handlerless [] [] "u.md" "{missing}" rfl).2.1 "missing"
    (by decide)

/-- Generic substitution of the single placeholder `\x7bmissing\x7d`
raises `KeyError "missing"` whenever the configuration lacks that key. -/
theorem pyFormat_missing (config : Config)
    (h : dget config "missing" = none) :
    pyFormat config "{missing}" = Except.error (PyErr.keyError "missing") := by
  have hdata : "{missing}".data = ['{', 'm', 'i', 's', 's', 'i', 'n', 'g', '}'] :=
    rfl
  have hmk : String.mk ['m', 'i', 's', 's', 'i', 'n', 'g'] = "missing" := rfl
  simp only [pyFormat, hdata]
  simp +decide [pyFormatGo, fieldSplit, hmk, h]

/-- C3: priming the handler-less template `\x7bmissing\x7d` against any
configuration without key `missing` stores the literal raw content and
emits exactly one warning, whose text names the missing variable. -/
theorem primeTemplates_missing_var (config : Config) (name : String)
    (h : dget config "missing" = none) :
    primeTemplates config [] [(name, "{missing}")] =
      Except.ok ([(name, Primed.str "{missing}")],
        [warnMsg name "missing"]) ∧
    ∃ pre post, warnMsg name "missing" = pre ++ "missing" ++ post := by
  refine ⟨?_, "Warning: Template " ++ name ++ " needs variable \x27",
    "\x27 that\x27s not in config. Using template as-is.", rfl⟩
  simp [primeTemplates, dget, pyFormat_missing config h]

/-- Witness for C3 at a concrete configuration lacking `missing`. -/
theorem primeTemplates_missing_var_witness :
    primeTemplates [("other", "x")] [] [("u.md", "{missing}")] =
      Except.ok ([("u.md", Primed.str "{missing}")],
        [warnMsg "u.md" "missing"]) ∧
    ∃ pre post, warnMsg "u.md" "missing" = pre ++ "missing" ++ post :=
  primeTemplates_missing_var [("other", "x")] "u.md" (by decide)

theorem handleCategoryLoop_keys (string spacing header : String)
    (config : Config) (cats : List (String × List String))
    (res : List (String × String))
    (h : handleCategoryLoop string spacing header config cats = Except.ok res) :
    res.map Prod.fst = cats.map (fun p => p.1 ++ "/README.md") := by
  induction cats generalizing res with
  | nil =>
    simp only [handleCategoryLoop] at h
    cases h
    rfl
  | cons q rest ih =>
    obtain ⟨category, pictures⟩ := q
    simp only [handleCategoryLoop] at h
    cases hf : pyFormat (catHeaderMerged config category) header with
    | error e => rw [hf] at h; exact Except.noConfusion h
    | ok hd =>
      rw [hf] at h
      simp only [] at h
      cases hp : catPicsLoop string spacing config category hd pictures with
      | error e => rw [hp] at h; exact Except.noConfusion h
      | ok body =>
        rw [hp] at h
        simp only [] at h
        cases hr : handleCategoryLoop string spacing header config rest with
        | error e => rw [hr] at h; exact Except.noConfusion h
        | ok tail =>
          rw [hr] at h
          simp only [] at h
          cases h
          simp [ih tail hr]

/-- C4: whenever `handle_category` succeeds, its result has exactly one
entry per category of the UNFILTERED scan (the default empty exclude
list — `config["exclude"]` plays no part), keyed `category/README.md`,
for every configuration. -/
theorem handleCategory_unfiltered (fs : FS) (tmpls : List (String × String))
    (name string : String) (config : Config) (res : List (String × String))
    (h : handleCategory fs tmpls name string config = Except.ok res) :
    res.map Prod.fst =
      (categoricalWallpapers fs (StrOrList.list [])).map
        (fun p => p.1 ++ "/README.md") := by
  simp only [handleCategory] at h
  cases hs : dgetE config "spacing" with
  | error e => rw [hs] at h; exact Except.noConfusion h
  | ok spS =>
    rw [hs] at h
    simp only [] at h
    cases hn : pyInt spS with
    | error e => rw [hn] at h; exact Except.noConfusion h
    | ok n =>
      rw [hn] at h
      simp only [] at h
      exact handleCategoryLoop_keys _ _ _ _ _ _ h

/-- Witness for C4: one category `a`, one picture, an excluded-looking
configuration is not even consulted for the key set. -/
theorem handleCategory_unfiltered_witness :
    ([("a/README.md", "# a\n\np.png\n")] : List (String × String)).map
        Prod.fst =
      (categoricalWallpapers ⟨[("a", some ["p.png"])]⟩
          (StrOrList.list [])).map (fun p => p.1 ++ "/README.md") :=
  handleCategory_unfiltered ⟨[("a", some ["p.png"])]⟩ [] "category.md"
    "{filepath}" [("spacing", "1"), ("exclude", "a")]
    [("a/README.md", "# a\n\np.png\n")] (by decide)

/-- C5: the full document is the ordered sequence of the primed values
of exactly heading.md, body.heading.md, body.category.md and sources.md;
when any of these names — or category.md, for the per-category set — is
absent from the primed mapping, composition fails with a `KeyError`, and
a run whose priming succeeded therefore terminates without producing
output. -/
theorem composeMain_fixed_sequence (primed : List (String × Primed)) :
    (∀ h bh bc s c,
      dget primed "heading.md" = some h →
      dget primed "body.heading.md" = some bh →
      dget primed "body.category.md" = some bc →
      dget primed "sources.md" = some s →
      dget primed "category.md" = some c →
      composeMain primed = Except.ok ([h, bh, bc, s], c)) ∧
    ((dget primed "heading.md" = none ∨
      dget primed "body.heading.md" = none ∨
      dget primed "body.category.md" = none ∨
      dget primed "sources.md" = none ∨
      dget primed "category.md" = none) →
      ∃ k, composeMain primed = Except.error (PyErr.keyError k)) ∧
    (∀ fs sh manifest tdir config0 date ws,
      primeTemplates (dictSet config0 "date" date)
          (mainHandlers fs sh manifest tdir) (mainTemplates manifest tdir) =
        Except.ok (primed, ws) →
      (dget primed "heading.md" = none ∨
       dget primed "body.heading.md" = none ∨
       dget primed "body.category.md" = none ∨
       dget primed "sources.md" = none ∨
       dget primed "category.md" = none) →
      ∃ e, pyMain fs sh manifest tdir config0 date = Except.error e) := by
  have key : (dget primed "heading.md" = none ∨
      dget primed "body.heading.md" = none ∨
      dget primed "body.category.md" = none ∨
      dget primed "sources.md" = none ∨
      dget primed "category.md" = none) →
      ∃ k, composeMain primed = Except.error (PyErr.keyError k) := by
    intro hdisj
    cases h1 : dget primed "heading.md" with
    | none =>
      exact ⟨"heading.md", by
        simp [composeMain, composeFull, fullTemplateNames, dgetE, h1]⟩
    | some v1 =>
      cases h2 : dget primed "body.heading.md" with
      | none =>
        exact ⟨"body.heading.md", by
          simp [composeMain, composeFull, fullTemplateNames, dgetE, h1, h2]⟩
      | some v2 =>
        cases h3 : dget primed "body.category.md" with
        | none =>
          exact ⟨"body.category.md", by
            simp [composeMain, composeFull, fullTemplateNames, dgetE, h1, h2,
              h3]⟩
        | some v3 =>
          cases h4 : dget primed "sources.md" with
          | none =>
            exact ⟨"sources.md", by
              simp [composeMain, composeFull, fullTemplateNames, dgetE, h1,
                h2, h3, h4]⟩
          | some v4 =>
            cases h5 : dget primed "category.md" with
            | none =>
              exact ⟨"category.md", by
                simp [composeMain, composeFull, fullTemplateNames, dgetE, h1,
                  h2, h3, h4, h5]⟩
            | some v5 =>
              rcases hdisj with h | h | h | h | h <;> simp_all
  refine ⟨?_, key, ?_⟩
  · intro h bh bc s c h1 h2 h3 h4 h5
    simp [composeMain, composeFull, fullTemplateNames, dgetE, h1, h2, h3, h4,
      h5]
  · intro fs sh manifest tdir config0 date ws hprime hdisj
    obtain ⟨k, hk⟩ := key hdisj
    exact ⟨PyErr.keyError k, by simp [pyMain, hprime, hk]⟩

/-- Witness for C5: the composed pair at a complete primed mapping, and
the `KeyError` at the empty primed mapping. -/
theorem composeMain_fixed_sequence_witness :
    composeMain
        [("heading.md", Primed.str "H"), ("body.heading.md", Primed.str "B"),
         ("body.category.md", Primed.str "C"), ("sources.md", Primed.str "S"),
         ("category.md", Primed.dict [])] =
      Except.ok ([Primed.str "H", Primed.str "B", Primed.str "C",
        Primed.str "S"], Primed.dict []) ∧
    ∃ k, composeMain [] = Except.error (PyErr.keyError k) :=
  ⟨(composeMain_fixed_sequence _).1 _ _ _ _ _ rfl rfl rfl rfl rfl,
   (composeMain_fixed_sequence []).2.1 (Or.inl rfl)⟩

theorem bodyCatsLoop_empty (string : String) (config : Config) (sp b : String)
    (hb : dget config "browse" = some b) (cats : List String) :
    bodyCatsLoop string config sp (cats.map (fun c => (c, []))) =
      Except.ok (cats.flatMap (fun c =>
        ("## " ++ c ++ sp) ::
          (if pyCasefold b = pyCasefold "True" then
            ["[Browse](../" ++ c ++ "/README.md)" ++ sp]
          else []))) := by
  induction cats with
  | nil => rfl
  | cons c rest ih =>
    simp only [List.map_cons, bodyCatsLoop, bodyPicsLoop, dgetE, hb,
      List.flatMap_cons, ih, List.singleton_append, List.cons_append,
      List.nil_append]

/-- C8: with `config["choose"] = "0"` every category samples to the
empty list, and the body handler still emits the `## category` heading
piece for every scanned category, unconditionally. -/
theorem handleBody_choose_zero (fs : FS) (sh : List String → List String)
    (name string : String) (config : Config) (ex sp b : String) (n : Int)
    (hch : dget config "choose" = some "0")
    (hex : dget config "exclude" = some ex)
    (hsp : dget config "spacing" = some sp) (hn : pyInt sp = Except.ok n)
    (hb : dget config "browse" = some b) :
    generateShuffled sh config (categoricalWallpapers fs (StrOrList.str ex)) =
      Except.ok ((categoricalWallpapers fs (StrOrList.str ex)).map
        (fun p => (p.1, []))) ∧
    ∃ pieces,
      bodyCatsLoop string config (nlRepeat n)
          ((categoricalWallpapers fs (StrOrList.str ex)).map
            (fun p => (p.1, []))) = Except.ok pieces ∧
      (∀ c ∈ (categoricalWallpapers fs (StrOrList.str ex)).map Prod.fst,
        ("## " ++ c ++ nlRepeat n) ∈ pieces) ∧
      handleBody fs sh name string config =
        Except.ok (String.intercalate (nlRepeat n) pieces) := by
  have h0 : pyInt "0" = Except.ok 0 := by decide
  have hshuf : generateShuffled sh config
      (categoricalWallpapers fs (StrOrList.str ex)) =
      Except.ok ((categoricalWallpapers fs (StrOrList.str ex)).map
        (fun p => (p.1, []))) := by
    simp only [generateShuffled, dgetE, hch, h0]
    congr 1
  have hmm : (categoricalWallpapers fs (StrOrList.str ex)).map
      (fun p => (p.1, ([] : List String))) =
      ((categoricalWallpapers fs (StrOrList.str ex)).map Prod.fst).map
        (fun c => (c, [])) := by
    rw [List.map_map]
    rfl
  have hloop := bodyCatsLoop_empty string config (nlRepeat n) b hb
    ((categoricalWallpapers fs (StrOrList.str ex)).map Prod.fst)
  rw [← hmm] at hloop
  refine ⟨hshuf, _, hloop, ?_, ?_⟩
  · intro c hc
    exact List.mem_flatMap.mpr ⟨c, hc, List.mem_cons_self _ _⟩
  · simp only [handleBody, dgetE, hex, hshuf, hsp, hn, hloop]

/-- Witness for C8 at one category with one unsampled picture. -/
theorem handleBody_choose_zero_witness :
    generateShuffled id
        [("choose", "0"), ("exclude", ""), ("spacing", "1"),
          ("browse", "false")]
        (categoricalWallpapers ⟨[("a", some ["x.png"])]⟩ (StrOrList.str "")) =
      Except.ok ((categoricalWallpapers ⟨[("a", some ["x.png"])]⟩
          (StrOrList.str "")).map (fun p => (p.1, []))) ∧
    ∃ pieces,
      bodyCatsLoop "pic"
          [("choose", "0"), ("exclude", ""), ("spacing", "1"),
            ("browse", "false")] (nlRepeat 1)
          ((categoricalWallpapers ⟨[("a", some ["x.png"])]⟩
            (StrOrList.str "")).map (fun p => (p.1, []))) = Except.ok pieces ∧
      (∀ c ∈ (categoricalWallpapers ⟨[("a", some ["x.png"])]⟩
            (StrOrList.str "")).map Prod.fst,
        ("## " ++ c ++ nlRepeat 1) ∈ pieces) ∧
      handleBody ⟨[("a", some ["x.png"])]⟩ id "body.category.md" "pic"
          [("choose", "0"), ("exclude", ""), ("spacing", "1"),
            ("browse", "false")] =
        Except.ok (String.intercalate (nlRepeat 1) pieces) :=
  handleBody_choose_zero ⟨[("a", some ["x.png"])]⟩ id "body.category.md"
    "pic"
    [("choose", "0"), ("exclude", ""), ("spacing", "1"), ("browse", "false")]
    "" "1" "false" 1 rfl rfl rfl (by decide) rfl

/-- C9: `handle_body` merges the injected category name UNDER the
configuration (a `category` key in the config wins), while
`handle_category` merges it OVER the configuration (the directory name
wins); the two substitutions of the `category` placeholder agree for
every directory name exactly when the configuration has no `category`
key. -/
theorem handler_category_precedence (config : Config) (pic : String) :
    (∀ category v, dget config "category" = some v →
      dget (bodyMerged category config) "category" = some v) ∧
    (∀ category, dget config "category" = none →
      dget (bodyMerged category config) "category" = some category) ∧
    (∀ category,
      dget (catPicMerged config pic category) "category" = some category) ∧
    ((∀ category, dget (bodyMerged category config) "category" =
        dget (catPicMerged config pic category) "category") ↔
      dget config "category" = none) := by
  have p1 : ∀ category v, dget config "category" = some v →
      dget (bodyMerged category config) "category" = some v := by
    intro category v hv
    rw [bodyMerged, pyUnion, dget_append, hv]
  have p2 : ∀ category, dget config "category" = none →
      dget (bodyMerged category config) "category" = some category := by
    intro category hn
    rw [bodyMerged, pyUnion, dget_append, hn]
    rfl
  have p3 : ∀ category,
      dget (catPicMerged config pic category) "category" = some category := by
    intro category
    simp +decide [catPicMerged, pyUnion, dget]
  refine ⟨p1, p2, p3, ?_, ?_⟩
  · intro hall
    cases hc : dget config "category" with
    | none => rfl
    | some v =>
      exfalso
      have hv := hall (v ++ "!")
      rw [p1 (v ++ "!") v hc, p3 (v ++ "!")] at hv
      have heq : v = v ++ "!" := Option.some.inj hv
      have h2 := congrArg String.length heq
      rw [String.length_append] at h2
      have h3 : ("!").length = 1 := rfl
      omega
  · intro hn category
    rw [p2 category hn, p3 category]

/-- Witness for C9: with `category = "cfg"` in the configuration, the
body merge resolves to the config value while the category merge
resolves to the directory name. -/
theorem handler_category_precedence_witness :
    dget (bodyMerged "dir" [("category", "cfg")]) "category" = some "cfg" ∧
    dget (catPicMerged [("category", "cfg")] "p.png" "dir") "category" =
      some "dir" :=
  ⟨(handler_category_precedence [("category", "cfg")] "p.png").1 "dir" "cfg"
      rfl,
   (handler_category_precedence [("category", "cfg")] "p.png").2.2.1 "dir"⟩

/-- C10: a configuration without key `dry` can never complete a run: the
`CONFIG["dry"]` lookup in `__main__` raises `KeyError` after composition
and before either output branch, so nothing is written; when priming and
composition succeed the error is exactly `KeyError "dry"`. -/
theorem pyMain_requires_dry (fs : FS) (sh : List String → List String)
    (manifest : ManifestFile) (tdir : List (String × String))
    (config0 : Config) (date : String)
    (hdry : dget config0 "dry" = none) :
    (∀ out, pyMain fs sh manifest tdir config0 date ≠ Except.ok out) ∧
    (∀ primed ws full part,
      primeTemplates (dictSet config0 "date" date)
          (mainHandlers fs sh manifest tdir) (mainTemplates manifest tdir) =
        Except.ok (primed, ws) →
      composeMain primed = Except.ok (full, part) →
      pyMain fs sh manifest tdir config0 date =
        Except.error (PyErr.keyError "dry")) := by
  have hnone : dget (dictSet config0 "date" date) "dry" = none := by
    rw [dget_dictSet_ne config0 "date" "dry" date (by decide)]
    exact hdry
  have hdE : dgetE (dictSet config0 "date" date) "dry" =
      Except.error (PyErr.keyError "dry") := by
    simp [dgetE, hnone]
  constructor
  · intro out hout
    simp only [pyMain] at hout
    cases hp : primeTemplates (dictSet config0 "date" date)
        (mainHandlers fs sh manifest tdir) (mainTemplates manifest tdir) with
    | error e => rw [hp] at hout; exact Except.noConfusion hout
    | ok pr =>
      obtain ⟨primed, ws⟩ := pr
      rw [hp] at hout
      simp only [] at hout
      cases hcm : composeMain primed with
      | error e => rw [hcm] at hout; exact Except.noConfusion hout
      | ok fp =>
        obtain ⟨full, part⟩ := fp
        rw [hcm] at hout
        simp only [] at hout
        rw [hdE] at hout
        exact Except.noConfusion hout
  · intro primed ws full part hprime hcomp
    simp only [pyMain, hprime, hcomp, hdE]

/-- Witness for C10: a complete configuration and template set, lacking
only `dry`, reaches exactly the `KeyError "dry"`. -/
theorem pyMain_requires_dry_witness :
    pyMain ⟨[]⟩ id ManifestFile.absent
        [("heading.md", "H"), ("body.heading.md", "B"),
          ("body.category.md", "C"), ("sources.md", "S"),
          ("category.md", "G")]
        [("choose", "1"), ("exclude", ""), ("spacing", "1"),
          ("browse", "false")] "2026-01-01" =
      Except.error (PyErr.keyError "dry") :=
  (pyMain_requires_dry ⟨[]⟩ id ManifestFile.absent
    [("heading.md", "H"), ("body.heading.md", "B"),
      ("body.category.md", "C"), ("sources.md", "S"), ("category.md", "G")]
    [("choose", "1"), ("exclude", ""), ("spacing", "1"), ("browse", "false")]
    "2026-01-01" rfl).2
    [("heading.md", Primed.str "H"), ("body.heading.md", Primed.str "B"),
      ("body.category.md", Primed.str ""), ("sources.md", Primed.str "S"),
      ("category.md", Primed.dict [])] []
    [Primed.str "H", Primed.str "B", Primed.str "", Primed.str "S"]
    (Primed.dict []) (by decide) (by decide)



